import Mathlib

/-!
# The `command` notifier module: request side and result interpretation

A shallow embedding of `orte/mca/notifier/command/notifier_command_module.c`:
`send_command` and the three entry points `command_log`, `command_help`,
`command_peer`.

C `int` values are integers; the places where the source converts or adds in
`int` go through `wrap32`.  A `char *` argument is the list of bytes stored at
the pointer.  Calls to functions outside the file (`orte_notifier_command_write_fd`,
`orte_notifier_command_read_fd`, `orte_show_help`, `free`) are recorded, in
order, as a list of `Event`s; what the channel functions return is given by a
`Peer`.
-/

set_option linter.unusedVariables false

namespace NotifierCommand

/-! ## Machine integers and `<sys/wait.h>` -/

/-- Reduction modulo 2^32 of an integer to a 32 bit C `int`. -/
def wrap32 (x : Int) : Int :=
  (x + 2147483648) % 4294967296 - 2147483648

/-- Size in bytes of a C `int`. -/
def sizeof_int : Int := 4

/-- Modelled from the spec: `WTERMSIG` of `<sys/wait.h>`, which the sources
include but do not contain; the spec's "raw OS wait-status encoding", as on
Linux: `status & 0x7f`. -/
def WTERMSIG (status : Int) : Int :=
  status % 128

/-- Modelled from the spec: `WEXITSTATUS` of `<sys/wait.h>`, which the sources
include but do not contain; as on Linux: `(status & 0xff00) >> 8`. -/
def WEXITSTATUS (status : Int) : Int :=
  (status / 256) % 256

/-- Modelled from the spec: `WIFEXITED` of `<sys/wait.h>`, which the sources
include but do not contain; as on Linux: `WTERMSIG(status) == 0`. -/
def WIFEXITED (status : Int) : Bool :=
  WTERMSIG status == 0

/-- The `strlen` of the C library: the number of bytes before the first zero byte
of the array at the pointer. -/
def strlen (s : List Nat) : Nat :=
  (s.takeWhile (fun b => b != 0)).length

/-! ## Constants, configuration and the other end of the channel -/

/-- Constants of headers that are not part of the sources
(`orte/constants.h`, `notifier_command.h`, `opal/util/error.h`). -/
structure Constants where
  ORTE_SUCCESS : Int
  ORTE_ERROR : Int
  ORTE_ERR_TIMEOUT : Int
  CMD_EXEC : Int
  opal_strerror : Int → String

/-- Fields of `mca_notifier_command_component` and `orte_process_info` that
`send_command` reads. -/
structure Component where
  to_child1 : Int
  to_parent0 : Int
  cmd : String
  timeout : Int
  nodename : String

/-- What the channel functions return to one call of `send_command`: the
return code of the header write, of the payload write and of the read, and the
three integers the read stores into `csel[0..2]`. -/
structure Peer where
  write1_rc : Int
  write2_rc : Int
  read_rc : Int
  csel0 : Int
  csel1 : Int
  csel2 : Int

/-! ## Events -/

/-- A variadic argument of `orte_show_help`. -/
inductive Arg where
  | str (s : String)
  | int (n : Int)
  deriving DecidableEq, Repr

/-- The bytes handed to `orte_notifier_command_write_fd`: an array of `int`s
or an array of `char`s. -/
inductive Buf where
  | ints (xs : List Int)
  | bytes (bs : List Nat)
  deriving DecidableEq, Repr

/-- A call made by the module to a function outside the file. -/
inductive Event where
  | write_fd (fd : Int) (len : Int) (buf : Buf)
  | read_fd (fd : Int) (len : Int)
  | show_help (filename : String) (topic : String) (want_error_header : Bool)
      (args : List Arg)
  | free (p : List Nat)
  deriving DecidableEq, Repr

/-- `true` on the events that are writes to a channel. -/
def Event.isWrite : Event → Bool
  | .write_fd _ _ _ => true
  | _ => false

/-- `true` on the events that are reads from a channel. -/
def Event.isRead : Event → Bool
  | .read_fd _ _ => true
  | _ => false

/-- `true` on the events that are diagnostics. -/
def Event.isShowHelp : Event → Bool
  | .show_help _ _ _ _ => true
  | _ => false

/-- `true` on the events that release a buffer. -/
def Event.isFree : Event → Bool
  | .free _ => true
  | _ => false

/-- The topics of the diagnostics in a list of events, in order. -/
def diagnostics : List Event → List String
  | [] => []
  | Event.show_help _ topic _ _ :: es => topic :: diagnostics es
  | _ :: es => diagnostics es

/-! ## `send_command` -/

/-- The help file all diagnostics of the module come from. -/
def help_file : String := "help-orte-notifier-command.txt"

/-- The code at the label `error:` of `send_command`. -/
def error_label (K : Constants) (C : Component) (errmsg : String) (rc : Int) : Event :=
  Event.show_help help_file "system call fail" true
    [Arg.str C.nodename, Arg.str errmsg, Arg.str (K.opal_strerror rc), Arg.int rc]

/-- The "grandchild did not exit" diagnostic. -/
def did_not_exit_help (C : Component) : Event :=
  Event.show_help help_file "grandchild did not exit" true
    [Arg.str C.nodename, Arg.str C.cmd, Arg.int C.timeout]

/-- The "grandchild timeout" diagnostic, as the source builds it from
`csel[0]`. -/
def timeout_help (C : Component) (csel0 : Int) : Event :=
  Event.show_help help_file "grandchild timeout" true
    [Arg.str C.nodename, Arg.str C.cmd, Arg.int C.timeout,
     Arg.str (if WIFEXITED csel0 then "Exit status" else "Signal"),
     Arg.int (if WIFEXITED csel0 then WEXITSTATUS csel0 else WTERMSIG csel0)]

/-- The "grandchild fail" diagnostic, as the source builds it from
`csel[0]`. -/
def fail_help (C : Component) (csel0 : Int) : Event :=
  Event.show_help help_file "grandchild fail" true
    [Arg.str C.nodename, Arg.str C.cmd,
     Arg.str (if WIFEXITED csel0 then "Exit status" else "Signal"),
     Arg.int (if WIFEXITED csel0 then WEXITSTATUS csel0 else WTERMSIG csel0)]

/-- The header write of `send_command`: `sizeof(csel)` bytes, the four
integers of `csel`. -/
def header_write (K : Constants) (C : Component) (severity errcode : Int)
    (msg : List Nat) : Event :=
  Event.write_fd C.to_child1 (4 * sizeof_int)
    (Buf.ints [K.CMD_EXEC, severity, errcode, wrap32 (strlen msg)])

/-- The payload write of `send_command`: `csel[3] + 1` bytes starting at
`msg`. -/
def payload_write (C : Component) (msg : List Nat) : Event :=
  Event.write_fd C.to_child1 (wrap32 (wrap32 (strlen msg) + 1))
    (Buf.bytes (msg.take (wrap32 (wrap32 (strlen msg) + 1)).toNat))

/-- The read of the result frame: `sizeof(int) * 3` bytes. -/
def result_read (C : Component) : Event :=
  Event.read_fd C.to_parent0 (sizeof_int * 3)

/-- The function `send_command`: the value it returns and the calls it makes,
in order. -/
def send_command (K : Constants) (C : Component) (P : Peer)
    (severity errcode : Int) (msg : List Nat) : Int × List Event :=
  let w1 := header_write K C severity errcode msg
  if K.ORTE_SUCCESS ≠ P.write1_rc then
    (P.write1_rc, [w1, error_label K C "write" P.write1_rc])
  else
    let w2 := payload_write C msg
    if K.ORTE_SUCCESS ≠ P.write2_rc then
      (P.write2_rc, [w1, w2, error_label K C "write" P.write2_rc])
    else
      let r := result_read C
      if K.ORTE_SUCCESS ≠ P.read_rc then
        (P.read_rc, [w1, w2, r, error_label K C "read" P.read_rc])
      else if 0 = P.csel0 then
        (K.ORTE_ERROR, [w1, w2, r, did_not_exit_help C])
      else if 1 = P.csel1 then
        (K.ORTE_ERR_TIMEOUT, [w1, w2, r, timeout_help C P.csel0])
      else if WIFEXITED P.csel1 && 0 == WEXITSTATUS P.csel1 then
        (K.ORTE_SUCCESS, [w1, w2, r])
      else
        (K.ORTE_ERROR, [w1, w2, r, fail_help C P.csel0])

/-! ## The entry points -/

/-- The function `command_log`.  The local `output` is declared without an
initialiser: `output0` is the value it holds before the call of the formatter,
a null pointer (`none`) or a pointer to some bytes.  `vasprintf` gives, from
that value, the format and the arguments, the value the call returns and the
value it leaves in `output`; the source discards the first and tests the
second. -/
def command_log {Ap : Type} (K : Constants) (C : Component) (P : Peer)
    (vasprintf : Option (List Nat) → List Nat → Ap → Int × Option (List Nat))
    (output0 : Option (List Nat))
    (severity errcode : Int) (msg : List Nat) (ap : Ap) : List Event :=
  match (vasprintf output0 msg ap).2 with
  | some output => (send_command K C P severity errcode output).2 ++ [Event.free output]
  | none => []

/-- The function `command_help`; `opal_show_help_vstring` is the formatter,
called with `want_error_header = false`. -/
def command_help {Ap : Type} (K : Constants) (C : Component) (P : Peer)
    (opal_show_help_vstring : List Nat → List Nat → Bool → Ap → Option (List Nat))
    (severity errcode : Int) (filename topic : List Nat) (ap : Ap) : List Event :=
  match opal_show_help_vstring filename topic false ap with
  | some output => (send_command K C P severity errcode output).2 ++ [Event.free output]
  | none => []

/-- The function `command_peer`; `orte_notifier_base_peer_log` is the
formatter. -/
def command_peer {Ap Name : Type} (K : Constants) (C : Component) (P : Peer)
    (orte_notifier_base_peer_log : Int → Name → List Nat → Ap → Option (List Nat))
    (severity errcode : Int) (peer_proc : Name) (msg : List Nat) (ap : Ap) : List Event :=
  match orte_notifier_base_peer_log errcode peer_proc msg ap with
  | some buf => (send_command K C P severity errcode buf).2 ++ [Event.free buf]
  | none => []

/-! ## Concrete values used in the examples -/

/-- Sample values of the constants, for the examples. -/
def ompi : Constants where
  ORTE_SUCCESS := 0
  ORTE_ERROR := -1
  ORTE_ERR_TIMEOUT := -15
  CMD_EXEC := 1
  opal_strerror := fun _ => "Error"

/-- A configuration: pipe descriptors 5 and 6, a ten second timeout. -/
def cfg : Component where
  to_child1 := 5
  to_parent0 := 6
  cmd := "/sbin/notify"
  timeout := 10
  nodename := "node0"

/-- A peer on which every channel call succeeds and that answers with the
given result frame. -/
def answering (K : Constants) (exited timed_out wait_status : Int) : Peer where
  write1_rc := K.ORTE_SUCCESS
  write2_rc := K.ORTE_SUCCESS
  read_rc := K.ORTE_SUCCESS
  csel0 := exited
  csel1 := timed_out
  csel2 := wait_status

/-- The bytes of "hi" followed by the terminator. -/
def hi : List Nat := [104, 105, 0]

/-- A `vasprintf` whose formatting fails: it returns -1 and stores nothing
through its first argument, so `output` keeps the value it had. -/
def vasprintf_fails (strp : Option (List Nat)) (fmt : List Nat) (ap : Unit) :
    Int × Option (List Nat) :=
  (-1, strp)

/-- A `vasprintf` that succeeds: it stores a pointer to the bytes of "hi" and
returns their number. -/
def vasprintf_hi (strp : Option (List Nat)) (fmt : List Nat) (ap : Unit) :
    Int × Option (List Nat) :=
  (2, some hi)

/-- The bytes at a pointer left over in the uninitialised `output`: "x" and
the terminator. -/
def stale : List Nat := [120, 0]


/-! ## Result interpretation -/

/-- Once the two writes and the read have succeeded, `send_command` is the
interpretation of `csel[0]` and `csel[1]`. -/
theorem send_command_ok (K : Constants) (C : Component) (P : Peer)
    (severity errcode : Int) (msg : List Nat)
    (h1 : P.write1_rc = K.ORTE_SUCCESS) (h2 : P.write2_rc = K.ORTE_SUCCESS)
    (h3 : P.read_rc = K.ORTE_SUCCESS) :
    send_command K C P severity errcode msg =
      if 0 = P.csel0 then
        (K.ORTE_ERROR, [header_write K C severity errcode msg, payload_write C msg,
          result_read C, did_not_exit_help C])
      else if 1 = P.csel1 then
        (K.ORTE_ERR_TIMEOUT, [header_write K C severity errcode msg, payload_write C msg,
          result_read C, timeout_help C P.csel0])
      else if WIFEXITED P.csel1 && 0 == WEXITSTATUS P.csel1 then
        (K.ORTE_SUCCESS, [header_write K C severity errcode msg, payload_write C msg,
          result_read C])
      else
        (K.ORTE_ERROR, [header_write K C severity errcode msg, payload_write C msg,
          result_read C, fail_help C P.csel0]) := by
  simp [send_command, h1, h2, h3]

/-- C1 (the code at the failing input): with every channel call succeeding and
the result frame `(exited, timed_out, wait_status) = (1, 0, 256)`, whose wait
status is a normal exit with code 1, `send_command` returns `ORTE_SUCCESS` and
emits no diagnostic; the same happens on `(1, 0, 9)`, termination by
signal 9. -/
theorem C1_failed_command_returns_success :
    WIFEXITED 256 = true ∧ WEXITSTATUS 256 = 1 ∧
      send_command ompi cfg (answering ompi 1 0 256) 3 7 hi =
        (ompi.ORTE_SUCCESS,
          [Event.write_fd 5 16 (Buf.ints [1, 3, 7, 2]),
           Event.write_fd 5 3 (Buf.bytes [104, 105, 0]), Event.read_fd 6 12]) ∧
      WIFEXITED 9 = false ∧ WTERMSIG 9 = 9 ∧
      send_command ompi cfg (answering ompi 1 0 9) 3 7 hi =
        (ompi.ORTE_SUCCESS,
          [Event.write_fd 5 16 (Buf.ints [1, 3, 7, 2]),
           Event.write_fd 5 3 (Buf.bytes [104, 105, 0]), Event.read_fd 6 12]) := by
  decide

/-- C2: when the three channel calls succeed and the result frame has
`exited != 0`, `timed_out == 0` and a wait status of a normal exit with code 0,
`send_command` returns `ORTE_SUCCESS`, its calls are the two writes and the
read, and it emits no diagnostic. -/
theorem C2_clean_exit_success (K : Constants) (C : Component) (P : Peer)
    (severity errcode : Int) (msg : List Nat)
    (h1 : P.write1_rc = K.ORTE_SUCCESS) (h2 : P.write2_rc = K.ORTE_SUCCESS)
    (h3 : P.read_rc = K.ORTE_SUCCESS)
    (hexited : P.csel0 ≠ 0) (htimed : P.csel1 = 0)
    (hnormal : WIFEXITED P.csel2 = true) (hcode : WEXITSTATUS P.csel2 = 0) :
    send_command K C P severity errcode msg =
        (K.ORTE_SUCCESS,
          [header_write K C severity errcode msg, payload_write C msg, result_read C]) ∧
      diagnostics (send_command K C P severity errcode msg).2 = [] := by
  have h0 : ¬ (0 = P.csel0) := fun h => hexited h.symm
  rw [send_command_ok K C P severity errcode msg h1 h2 h3]
  simp [h0, htimed, WIFEXITED, WTERMSIG, WEXITSTATUS, diagnostics, header_write,
    payload_write, result_read]

/-- C2 at the frame `(1, 0, 0)`. -/
theorem C2_clean_exit_success_witness :
    (answering ompi 1 0 0).csel0 ≠ 0 ∧ (answering ompi 1 0 0).csel1 = 0 ∧
      WIFEXITED (answering ompi 1 0 0).csel2 = true ∧
      WEXITSTATUS (answering ompi 1 0 0).csel2 = 0 ∧
      send_command ompi cfg (answering ompi 1 0 0) 3 7 hi =
        (0, [Event.write_fd 5 16 (Buf.ints [1, 3, 7, 2]),
             Event.write_fd 5 3 (Buf.bytes [104, 105, 0]), Event.read_fd 6 12]) ∧
      diagnostics (send_command ompi cfg (answering ompi 1 0 0) 3 7 hi).2 = [] :=
  ⟨by decide, by decide, by decide, by decide,
    C2_clean_exit_success ompi cfg (answering ompi 1 0 0) 3 7 hi rfl rfl rfl
      (by decide) (by decide) (by decide) (by decide)⟩

/-- C3: when the three channel calls succeed and the result frame has
`exited != 0` and `timed_out == 1`, whatever its wait status, `send_command`
returns `ORTE_ERR_TIMEOUT` after the two writes, the read and one diagnostic,
"grandchild timeout"; `ORTE_ERR_TIMEOUT` being a code of its own, the value
returned is neither `ORTE_SUCCESS` nor `ORTE_ERROR`. -/
theorem C3_timeout_outcome (K : Constants) (C : Component) (P : Peer)
    (severity errcode : Int) (msg : List Nat)
    (hK1 : K.ORTE_ERR_TIMEOUT ≠ K.ORTE_SUCCESS) (hK2 : K.ORTE_ERR_TIMEOUT ≠ K.ORTE_ERROR)
    (h1 : P.write1_rc = K.ORTE_SUCCESS) (h2 : P.write2_rc = K.ORTE_SUCCESS)
    (h3 : P.read_rc = K.ORTE_SUCCESS)
    (hexited : P.csel0 ≠ 0) (htimed : P.csel1 = 1) :
    (send_command K C P severity errcode msg).1 = K.ORTE_ERR_TIMEOUT ∧
      (∃ args, (send_command K C P severity errcode msg).2 =
        [header_write K C severity errcode msg, payload_write C msg, result_read C,
          Event.show_help help_file "grandchild timeout" true args]) ∧
      diagnostics (send_command K C P severity errcode msg).2 = ["grandchild timeout"] ∧
      (send_command K C P severity errcode msg).1 ≠ K.ORTE_SUCCESS ∧
      (send_command K C P severity errcode msg).1 ≠ K.ORTE_ERROR := by
  have h0 : ¬ (0 = P.csel0) := fun h => hexited h.symm
  rw [send_command_ok K C P severity errcode msg h1 h2 h3]
  simp [h0, htimed, hK1, hK2, diagnostics, header_write, payload_write, result_read,
    timeout_help]

/-- C3 at the frames `(1, 1, 9)` and `(1, 1, 0)`. -/
theorem C3_timeout_outcome_witness :
    ((send_command ompi cfg (answering ompi 1 1 9) 3 7 hi).1 = -15 ∧
      (∃ args, (send_command ompi cfg (answering ompi 1 1 9) 3 7 hi).2 =
        [header_write ompi cfg 3 7 hi, payload_write cfg hi, result_read cfg,
          Event.show_help help_file "grandchild timeout" true args]) ∧
      diagnostics (send_command ompi cfg (answering ompi 1 1 9) 3 7 hi).2 =
        ["grandchild timeout"] ∧
      (send_command ompi cfg (answering ompi 1 1 9) 3 7 hi).1 ≠ 0 ∧
      (send_command ompi cfg (answering ompi 1 1 9) 3 7 hi).1 ≠ -1) ∧
    (send_command ompi cfg (answering ompi 1 1 0) 3 7 hi).1 = -15 :=
  ⟨C3_timeout_outcome ompi cfg (answering ompi 1 1 9) 3 7 hi (by decide) (by decide)
      rfl rfl rfl (by decide) rfl,
    (C3_timeout_outcome ompi cfg (answering ompi 1 1 0) 3 7 hi (by decide) (by decide)
      rfl rfl rfl (by decide) rfl).1⟩

/-- C4: when the three channel calls succeed and the result frame has
`exited == 0`, whatever `timed_out` and the wait status are, `send_command`
returns `ORTE_ERROR` after the two writes, the read and one diagnostic,
"grandchild did not exit", whose arguments are the node name, the configured
command and the configured timeout; no "grandchild timeout" diagnostic is
emitted, and the value returned is not `ORTE_ERR_TIMEOUT` when that code
differs from `ORTE_ERROR`. -/
theorem C4_did_not_exit_outcome (K : Constants) (C : Component) (P : Peer)
    (severity errcode : Int) (msg : List Nat)
    (h1 : P.write1_rc = K.ORTE_SUCCESS) (h2 : P.write2_rc = K.ORTE_SUCCESS)
    (h3 : P.read_rc = K.ORTE_SUCCESS) (hexited : P.csel0 = 0) :
    send_command K C P severity errcode msg =
        (K.ORTE_ERROR,
          [header_write K C severity errcode msg, payload_write C msg, result_read C,
            Event.show_help help_file "grandchild did not exit" true
              [Arg.str C.nodename, Arg.str C.cmd, Arg.int C.timeout]]) ∧
      diagnostics (send_command K C P severity errcode msg).2 =
        ["grandchild did not exit"] ∧
      (K.ORTE_ERROR ≠ K.ORTE_ERR_TIMEOUT →
        (send_command K C P severity errcode msg).1 ≠ K.ORTE_ERR_TIMEOUT) := by
  rw [send_command_ok K C P severity errcode msg h1 h2 h3]
  simp [hexited, diagnostics, header_write, payload_write, result_read, did_not_exit_help]

/-- C4 at the frames `(0, 1, 9)` and `(0, 0, 0)`. -/
theorem C4_did_not_exit_outcome_witness :
    (send_command ompi cfg (answering ompi 0 1 9) 3 7 hi =
        (-1, [Event.write_fd 5 16 (Buf.ints [1, 3, 7, 2]),
              Event.write_fd 5 3 (Buf.bytes [104, 105, 0]), Event.read_fd 6 12,
              Event.show_help help_file "grandchild did not exit" true
                [Arg.str "node0", Arg.str "/sbin/notify", Arg.int 10]]) ∧
      diagnostics (send_command ompi cfg (answering ompi 0 1 9) 3 7 hi).2 =
        ["grandchild did not exit"] ∧
      (send_command ompi cfg (answering ompi 0 1 9) 3 7 hi).1 ≠ -15) ∧
    (send_command ompi cfg (answering ompi 0 0 0) 3 7 hi).1 = -1 :=
  ⟨⟨(C4_did_not_exit_outcome ompi cfg (answering ompi 0 1 9) 3 7 hi rfl rfl rfl rfl).1,
      (C4_did_not_exit_outcome ompi cfg (answering ompi 0 1 9) 3 7 hi rfl rfl rfl rfl).2.1,
      (C4_did_not_exit_outcome ompi cfg (answering ompi 0 1 9) 3 7 hi rfl rfl rfl rfl).2.2
        (by decide)⟩,
    congrArg Prod.fst
      (C4_did_not_exit_outcome ompi cfg (answering ompi 0 0 0) 3 7 hi rfl rfl rfl rfl).1⟩


/-- C5 (the code at the failing inputs): on the frame `(1, 1, 768)`, whose wait
status is a normal exit with code 3, and on the frame `(1, 1, 9)`, whose wait
status is termination by signal 9, the "grandchild timeout" diagnostic reports
"Signal" and the number 1 both times: kind and number are computed from
`csel[0]`, the `exited` flag.  The "grandchild fail" diagnostic, reached on
the frame `(1, 2, 768)`, reports "Signal" 1 in the same way. -/
theorem C5_diagnostic_reports_exited_flag :
    WIFEXITED 768 = true ∧ WEXITSTATUS 768 = 3 ∧
      send_command ompi cfg (answering ompi 1 1 768) 3 7 hi =
        (ompi.ORTE_ERR_TIMEOUT,
          [Event.write_fd 5 16 (Buf.ints [1, 3, 7, 2]),
           Event.write_fd 5 3 (Buf.bytes [104, 105, 0]), Event.read_fd 6 12,
           Event.show_help help_file "grandchild timeout" true
             [Arg.str "node0", Arg.str "/sbin/notify", Arg.int 10,
              Arg.str "Signal", Arg.int 1]]) ∧
      WIFEXITED 9 = false ∧ WTERMSIG 9 = 9 ∧
      send_command ompi cfg (answering ompi 1 1 9) 3 7 hi =
        (ompi.ORTE_ERR_TIMEOUT,
          [Event.write_fd 5 16 (Buf.ints [1, 3, 7, 2]),
           Event.write_fd 5 3 (Buf.bytes [104, 105, 0]), Event.read_fd 6 12,
           Event.show_help help_file "grandchild timeout" true
             [Arg.str "node0", Arg.str "/sbin/notify", Arg.int 10,
              Arg.str "Signal", Arg.int 1]]) ∧
      send_command ompi cfg (answering ompi 1 2 768) 3 7 hi =
        (ompi.ORTE_ERROR,
          [Event.write_fd 5 16 (Buf.ints [1, 3, 7, 2]),
           Event.write_fd 5 3 (Buf.bytes [104, 105, 0]), Event.read_fd 6 12,
           Event.show_help help_file "grandchild fail" true
             [Arg.str "node0", Arg.str "/sbin/notify",
              Arg.str "Signal", Arg.int 1]]) := by
  decide

/-! ## The request frame -/

/-- The C string at the start of an array ends at the first zero byte. -/
theorem strlen_append_zero (text rest : List Nat) (hz : ∀ b ∈ text, b ≠ 0) :
    strlen (text ++ 0 :: rest) = text.length := by
  induction text with
  | nil => simp [strlen]
  | cons b bs ih =>
    have hb : b ≠ 0 := hz b (List.mem_cons_self b bs)
    have hbs : ∀ c ∈ bs, c ≠ 0 := fun c hc => hz c (List.mem_cons_of_mem b hc)
    have := ih hbs
    simp [strlen, List.takeWhile_cons, hb] at this ⊢
    exact this

/-- Values in the range of `int` are not changed by the reduction. -/
theorem wrap32_of_range (x : Int) (h0 : -2147483648 ≤ x) (h1 : x < 2147483648) :
    wrap32 x = x := by
  unfold wrap32
  omega

/-- The first `text.length + 1` bytes of the array are the text and the
terminator. -/
theorem take_text_terminator (text rest : List Nat) :
    (text ++ 0 :: rest).take (text.length + 1) = text ++ [0] := by
  induction text with
  | nil => simp
  | cons b bs ih => simpa using ih

/-- When both writes succeed, the writes of `send_command` are the header
write followed by the payload write. -/
theorem writes_of_send_command (K : Constants) (C : Component) (P : Peer)
    (severity errcode : Int) (msg : List Nat)
    (h1 : P.write1_rc = K.ORTE_SUCCESS) (h2 : P.write2_rc = K.ORTE_SUCCESS) :
    (send_command K C P severity errcode msg).2.filter Event.isWrite =
      [header_write K C severity errcode msg, payload_write C msg] := by
  simp only [send_command, h1, h2]
  split_ifs <;>
    simp_all [Event.isWrite, header_write, payload_write, result_read, error_label,
      did_not_exit_help, timeout_help, fail_help]

/-- C6 (amended): for every severity, errcode and message of length `L` with
`L + 1` representable as an `int`, stored at the pointer as its `L` non-zero
bytes followed by a zero byte, when both writes succeed the writes of
`send_command` are, in this order and with nothing else, the header of
`4 * sizeof(int)` bytes holding `[CMD_EXEC, severity, errcode, L]` and the
payload of `L + 1` bytes, the message bytes followed by one zero byte. -/
theorem C6_request_frame (K : Constants) (C : Component) (P : Peer)
    (severity errcode : Int) (text rest : List Nat)
    (hz : ∀ b ∈ text, b ≠ 0) (hL : (text.length : Int) + 1 < 2147483648)
    (h1 : P.write1_rc = K.ORTE_SUCCESS) (h2 : P.write2_rc = K.ORTE_SUCCESS) :
    (send_command K C P severity errcode (text ++ 0 :: rest)).2.filter Event.isWrite =
        [Event.write_fd C.to_child1 (4 * sizeof_int)
           (Buf.ints [K.CMD_EXEC, severity, errcode, (text.length : Int)]),
         Event.write_fd C.to_child1 ((text.length : Int) + 1) (Buf.bytes (text ++ [0]))] ∧
      (text ++ [0]).length = text.length + 1 := by
  have hw : wrap32 (text.length : Int) = text.length :=
    wrap32_of_range _ (by omega) (by omega)
  have hw1 : wrap32 ((text.length : Int) + 1) = text.length + 1 :=
    wrap32_of_range _ (by omega) (by omega)
  have ht : ((text.length : Int) + 1).toNat = text.length + 1 := by omega
  refine ⟨?_, by simp⟩
  rw [writes_of_send_command K C P severity errcode _ h1 h2]
  simp only [header_write, payload_write, strlen_append_zero text rest hz, hw, hw1, ht,
    take_text_terminator]

/-- C6 (amended) at the message "hi" and at the empty message, whose payload
is the single zero byte. -/
theorem C6_request_frame_witness :
    ((send_command ompi cfg (answering ompi 1 0 0) 3 7 ([104, 105] ++ 0 :: [])).2.filter
        Event.isWrite =
        [Event.write_fd 5 (4 * sizeof_int) (Buf.ints [1, 3, 7, 2]),
         Event.write_fd 5 (2 + 1) (Buf.bytes [104, 105, 0])] ∧
      ([104, 105] ++ [0]).length = 2 + 1) ∧
    (send_command ompi cfg (answering ompi 1 0 0) 3 7 ([] ++ 0 :: [])).2.filter
        Event.isWrite =
        [Event.write_fd 5 (4 * sizeof_int) (Buf.ints [1, 3, 7, 0]),
         Event.write_fd 5 (0 + 1) (Buf.bytes [0])] :=
  ⟨C6_request_frame ompi cfg (answering ompi 1 0 0) 3 7 [104, 105] [] (by decide)
      (by decide) rfl rfl,
    (C6_request_frame ompi cfg (answering ompi 1 0 0) 3 7 [] [] (by decide)
      (by decide) rfl rfl).1⟩

/-- At a message of 2147483647 bytes the header holds the length and the
payload write is asked for `-2147483648` bytes. -/
theorem writes_at_int_max (K : Constants) (C : Component) (P : Peer)
    (severity errcode : Int) (text rest : List Nat)
    (hz : ∀ b ∈ text, b ≠ 0) (hL : text.length = 2147483647)
    (h1 : P.write1_rc = K.ORTE_SUCCESS) (h2 : P.write2_rc = K.ORTE_SUCCESS) :
    (send_command K C P severity errcode (text ++ 0 :: rest)).2.filter Event.isWrite =
      [Event.write_fd C.to_child1 (4 * sizeof_int)
         (Buf.ints [K.CMD_EXEC, severity, errcode, 2147483647]),
       Event.write_fd C.to_child1 (-2147483648) (Buf.bytes [])] := by
  have hw : wrap32 ((2147483647 : Nat) : Int) = 2147483647 := by decide
  have hw1 : wrap32 ((2147483647 : Int) + 1) = -2147483648 := by decide
  have ht : (-2147483648 : Int).toNat = 0 := by decide
  rw [writes_of_send_command K C P severity errcode _ h1 h2]
  simp only [header_write, payload_write, strlen_append_zero text rest hz, hL, hw, hw1, ht,
    List.take_zero]

/-- A payload write of `-2147483648` bytes is not a write of `L + 1` bytes. -/
theorem writes_at_int_max_ne (K : Constants) (C : Component) (P : Peer)
    (severity errcode : Int) (text rest : List Nat)
    (hz : ∀ b ∈ text, b ≠ 0) (hL : text.length = 2147483647)
    (h1 : P.write1_rc = K.ORTE_SUCCESS) (h2 : P.write2_rc = K.ORTE_SUCCESS) :
    (send_command K C P severity errcode (text ++ 0 :: rest)).2.filter Event.isWrite ≠
      [Event.write_fd C.to_child1 (4 * sizeof_int)
         (Buf.ints [K.CMD_EXEC, severity, errcode, (text.length : Int)]),
       Event.write_fd C.to_child1 ((text.length : Int) + 1) (Buf.bytes (text ++ [0]))] := by
  rw [writes_at_int_max K C P severity errcode text rest hz hL h1 h2]
  intro h
  have h2 := (List.cons.inj (List.cons.inj h).2).1
  have h3 : (-2147483648 : Int) = (text.length : Int) + 1 := by
    injection h2
  omega
/-- C6 as stated fails at a message of `L = 2147483647` bytes, a length
representable as an `int`: the header holds `L`, but the `int` sum
`csel[3] + 1` is `-2147483648`, so the payload write is asked for that many
bytes and not for the `L + 1` bytes of the message and its terminator. -/
theorem C6_counterexample_length_int_max :
    (∀ b ∈ List.replicate 2147483647 65, b ≠ 0) ∧
      ((List.replicate 2147483647 65).length : Int) < 2147483648 ∧
      (answering ompi 1 0 0).write1_rc = ompi.ORTE_SUCCESS ∧
      (answering ompi 1 0 0).write2_rc = ompi.ORTE_SUCCESS ∧
      (send_command ompi cfg (answering ompi 1 0 0) 3 7
          (List.replicate 2147483647 65 ++ 0 :: [])).2.filter Event.isWrite =
        [Event.write_fd cfg.to_child1 (4 * sizeof_int)
           (Buf.ints [ompi.CMD_EXEC, 3, 7, 2147483647]),
         Event.write_fd cfg.to_child1 (-2147483648) (Buf.bytes [])] ∧
      (send_command ompi cfg (answering ompi 1 0 0) 3 7
          (List.replicate 2147483647 65 ++ 0 :: [])).2.filter Event.isWrite ≠
        [Event.write_fd cfg.to_child1 (4 * sizeof_int)
           (Buf.ints [ompi.CMD_EXEC, 3, 7, ((List.replicate 2147483647 65).length : Int)]),
         Event.write_fd cfg.to_child1 (((List.replicate 2147483647 65).length : Int) + 1)
           (Buf.bytes (List.replicate 2147483647 65 ++ [0]))] :=
  have hz : ∀ b ∈ List.replicate 2147483647 65, b ≠ 0 := fun b hb =>
    (List.eq_of_mem_replicate hb).symm ▸ (by decide : (65 : Nat) ≠ 0)
  have hL : (List.replicate 2147483647 65).length = 2147483647 :=
    List.length_replicate 2147483647 65
  ⟨hz, by omega, rfl, rfl,
    writes_at_int_max ompi cfg (answering ompi 1 0 0) 3 7 _ [] hz hL rfl rfl,
    writes_at_int_max_ne ompi cfg (answering ompi 1 0 0) 3 7 _ [] hz hL rfl rfl⟩

/-! ## Channel failures -/

/-- C7: when one of the three channel calls returns a code other than
`ORTE_SUCCESS`, `send_command` stops at the first such call: its calls are the
channel calls up to and including the failing one, each made once, followed by
one "system call fail" diagnostic whose arguments are the node name, "write"
or "read" for the failing call, the text of its code and the code; the value
returned is that code, and nothing depends on the integers of a result
frame. -/
theorem C7_channel_failure_aborts (K : Constants) (C : Component) (P : Peer)
    (severity errcode : Int) (msg : List Nat)
    (hfail : ¬ (P.write1_rc = K.ORTE_SUCCESS ∧ P.write2_rc = K.ORTE_SUCCESS ∧
      P.read_rc = K.ORTE_SUCCESS)) :
    send_command K C P severity errcode msg =
        (if P.write1_rc ≠ K.ORTE_SUCCESS then
          (P.write1_rc,
            [header_write K C severity errcode msg,
             Event.show_help help_file "system call fail" true
               [Arg.str C.nodename, Arg.str "write",
                Arg.str (K.opal_strerror P.write1_rc), Arg.int P.write1_rc]])
        else if P.write2_rc ≠ K.ORTE_SUCCESS then
          (P.write2_rc,
            [header_write K C severity errcode msg, payload_write C msg,
             Event.show_help help_file "system call fail" true
               [Arg.str C.nodename, Arg.str "write",
                Arg.str (K.opal_strerror P.write2_rc), Arg.int P.write2_rc]])
        else
          (P.read_rc,
            [header_write K C severity errcode msg, payload_write C msg, result_read C,
             Event.show_help help_file "system call fail" true
               [Arg.str C.nodename, Arg.str "read",
                Arg.str (K.opal_strerror P.read_rc), Arg.int P.read_rc]])) ∧
      diagnostics (send_command K C P severity errcode msg).2 = ["system call fail"] ∧
      (send_command K C P severity errcode msg).1 ≠ K.ORTE_SUCCESS ∧
      (∀ a b c : Int,
        send_command K C
            { write1_rc := P.write1_rc, write2_rc := P.write2_rc, read_rc := P.read_rc,
              csel0 := a, csel1 := b, csel2 := c } severity errcode msg =
          send_command K C P severity errcode msg) := by
  by_cases h1 : P.write1_rc = K.ORTE_SUCCESS
  · by_cases h2 : P.write2_rc = K.ORTE_SUCCESS
    · have h3 : P.read_rc ≠ K.ORTE_SUCCESS := fun h => hfail ⟨h1, h2, h⟩
      have h3' : ¬ (K.ORTE_SUCCESS = P.read_rc) := fun h => h3 h.symm
      simp [send_command, h1, h2, h3, h3', error_label, diagnostics, header_write,
        payload_write, result_read]
    · have h2' : ¬ (K.ORTE_SUCCESS = P.write2_rc) := fun h => h2 h.symm
      simp [send_command, h1, h2, h2', error_label, diagnostics, header_write,
        payload_write]
  · have h1' : ¬ (K.ORTE_SUCCESS = P.write1_rc) := fun h => h1 h.symm
    simp [send_command, h1, h1', error_label, diagnostics, header_write]

/-- C7 at a failing header write, a failing payload write and a failing
read, each with code `-14`. -/
theorem C7_channel_failure_aborts_witness :
    send_command ompi cfg ⟨-14, 0, 0, 1, 0, 0⟩ 3 7 hi =
        (-14, [Event.write_fd 5 16 (Buf.ints [1, 3, 7, 2]),
               Event.show_help help_file "system call fail" true
                 [Arg.str "node0", Arg.str "write", Arg.str "Error", Arg.int (-14)]]) ∧
      send_command ompi cfg ⟨0, -14, 0, 1, 0, 0⟩ 3 7 hi =
        (-14, [Event.write_fd 5 16 (Buf.ints [1, 3, 7, 2]),
               Event.write_fd 5 3 (Buf.bytes [104, 105, 0]),
               Event.show_help help_file "system call fail" true
                 [Arg.str "node0", Arg.str "write", Arg.str "Error", Arg.int (-14)]]) ∧
      send_command ompi cfg ⟨0, 0, -14, 1, 0, 0⟩ 3 7 hi =
        (-14, [Event.write_fd 5 16 (Buf.ints [1, 3, 7, 2]),
               Event.write_fd 5 3 (Buf.bytes [104, 105, 0]), Event.read_fd 6 12,
               Event.show_help help_file "system call fail" true
                 [Arg.str "node0", Arg.str "read", Arg.str "Error", Arg.int (-14)]]) :=
  ⟨(C7_channel_failure_aborts ompi cfg ⟨-14, 0, 0, 1, 0, 0⟩ 3 7 hi (by decide)).1,
    (C7_channel_failure_aborts ompi cfg ⟨0, -14, 0, 1, 0, 0⟩ 3 7 hi (by decide)).1,
    (C7_channel_failure_aborts ompi cfg ⟨0, 0, -14, 1, 0, 0⟩ 3 7 hi (by decide)).1⟩

/-! ## The entry points -/

/-- The function `send_command` releases nothing. -/
theorem send_command_no_free (K : Constants) (C : Component) (P : Peer)
    (severity errcode : Int) (msg : List Nat) :
    (send_command K C P severity errcode msg).2.filter Event.isFree = [] := by
  simp only [send_command]
  split_ifs <;>
    simp [Event.isFree, header_write, payload_write, result_read, error_label,
      did_not_exit_help, timeout_help, fail_help]

/-- One call of `send_command` makes its header write once. -/
theorem send_command_count_header (K : Constants) (C : Component) (P : Peer)
    (severity errcode : Int) (msg : List Nat) :
    List.count (header_write K C severity errcode msg)
      (send_command K C P severity errcode msg).2 = 1 := by
  simp only [send_command]
  split_ifs <;>
    simp [List.count_cons, header_write, payload_write, result_read, error_label,
      did_not_exit_help, timeout_help, fail_help]

/-- What an entry point does once its formatter has produced `s`: the calls
of one `send_command` on `s`, then the release of `s`. -/
theorem entry_trace (K : Constants) (C : Component) (P : Peer)
    (severity errcode : Int) (s : List Nat) :
    ((send_command K C P severity errcode s).2 ++ [Event.free s]).filter Event.isFree =
        [Event.free s] ∧
      List.count (header_write K C severity errcode s)
        ((send_command K C P severity errcode s).2 ++ [Event.free s]) = 1 ∧
      ((send_command K C P severity errcode s).2 ++ [Event.free s]).getLast? =
        some (Event.free s) := by
  refine ⟨?_, ?_, by simp⟩
  · rw [List.filter_append, send_command_no_free]
    simp [Event.isFree]
  · rw [List.count_append, send_command_count_header]
    simp [List.count_cons, header_write]

/-- Where the pointer an entry point tests is null it makes no call; where it
points to `s`, its calls are those of one `send_command` with the severity and
errcode it received and with `s`, followed by the release of `s`.  For
`command_log` the pointer tested is the value of `output` after the call of
`vasprintf`, whatever that call returned. -/
theorem entry_points_send_then_free {Ap Name : Type} (K : Constants) (C : Component)
    (P : Peer)
    (vasprintf : Option (List Nat) → List Nat → Ap → Int × Option (List Nat))
    (output0 : Option (List Nat))
    (opal_show_help_vstring : List Nat → List Nat → Bool → Ap → Option (List Nat))
    (orte_notifier_base_peer_log : Int → Name → List Nat → Ap → Option (List Nat))
    (severity errcode : Int) (msg filename topic : List Nat) (peer_proc : Name) (ap : Ap) :
    ((vasprintf output0 msg ap).2 = none →
        command_log K C P vasprintf output0 severity errcode msg ap = []) ∧
      (∀ s, (vasprintf output0 msg ap).2 = some s →
        command_log K C P vasprintf output0 severity errcode msg ap =
            (send_command K C P severity errcode s).2 ++ [Event.free s] ∧
          (command_log K C P vasprintf output0 severity errcode msg ap).filter
            Event.isFree = [Event.free s] ∧
          List.count (header_write K C severity errcode s)
            (command_log K C P vasprintf output0 severity errcode msg ap) = 1 ∧
          (command_log K C P vasprintf output0 severity errcode msg ap).getLast? =
            some (Event.free s)) ∧
      (opal_show_help_vstring filename topic false ap = none →
        command_help K C P opal_show_help_vstring severity errcode filename topic ap = []) ∧
      (∀ s, opal_show_help_vstring filename topic false ap = some s →
        command_help K C P opal_show_help_vstring severity errcode filename topic ap =
            (send_command K C P severity errcode s).2 ++ [Event.free s] ∧
          (command_help K C P opal_show_help_vstring severity errcode filename topic
            ap).filter Event.isFree = [Event.free s] ∧
          List.count (header_write K C severity errcode s)
            (command_help K C P opal_show_help_vstring severity errcode filename topic
              ap) = 1 ∧
          (command_help K C P opal_show_help_vstring severity errcode filename topic
            ap).getLast? = some (Event.free s)) ∧
      (orte_notifier_base_peer_log errcode peer_proc msg ap = none →
        command_peer K C P orte_notifier_base_peer_log severity errcode peer_proc msg
          ap = []) ∧
      (∀ s, orte_notifier_base_peer_log errcode peer_proc msg ap = some s →
        command_peer K C P orte_notifier_base_peer_log severity errcode peer_proc msg ap =
            (send_command K C P severity errcode s).2 ++ [Event.free s] ∧
          (command_peer K C P orte_notifier_base_peer_log severity errcode peer_proc msg
            ap).filter Event.isFree = [Event.free s] ∧
          List.count (header_write K C severity errcode s)
            (command_peer K C P orte_notifier_base_peer_log severity errcode peer_proc msg
              ap) = 1 ∧
          (command_peer K C P orte_notifier_base_peer_log severity errcode peer_proc msg
            ap).getLast? = some (Event.free s)) := by
  refine ⟨?_, ?_, ?_, ?_, ?_, ?_⟩
  · intro h
    simp only [command_log, h]
  · intro s h
    simp only [command_log, h]
    exact ⟨trivial, entry_trace K C P severity errcode s⟩
  · intro h
    simp only [command_help, h]
  · intro s h
    simp only [command_help, h]
    exact ⟨trivial, entry_trace K C P severity errcode s⟩
  · intro h
    simp only [command_peer, h]
  · intro s h
    simp only [command_peer, h]
    exact ⟨trivial, entry_trace K C P severity errcode s⟩

/-- C9 (the code at the failing input): in `command_log`, when `vasprintf`
fails (it returns -1 and stores nothing) while the uninitialised `output`
holds a non-null pointer, `send_command` is called on the bytes at that
pointer, so a header and a payload are written to the channel, and the pointer
is then released: the value `vasprintf` returns is discarded and only
`output` is tested.  With a formatter that yields a null pointer,
`command_help` and `command_peer`, which test the pointer their formatter
returns, make no call; with a `vasprintf` that succeeds, `command_log` sends
the formatted bytes and releases them. -/
theorem C9_command_log_sends_after_failed_format :
    (vasprintf_fails (some stale) [37, 115, 0] ()).1 = -1 ∧
      command_log ompi cfg (answering ompi 1 0 0) vasprintf_fails (some stale) 3 7
          [37, 115, 0] () =
        [Event.write_fd 5 16 (Buf.ints [1, 3, 7, 1]),
         Event.write_fd 5 2 (Buf.bytes [120, 0]), Event.read_fd 6 12,
         Event.free [120, 0]] ∧
      command_help ompi cfg (answering ompi 1 0 0) (fun _ _ _ (_ : Unit) => none) 3 7
          [102, 0] [116, 0] () = [] ∧
      command_peer ompi cfg (answering ompi 1 0 0) (fun _ (_ : Nat) _ (_ : Unit) => none)
          3 7 4 [37, 115, 0] () = [] ∧
      command_log ompi cfg (answering ompi 1 0 0) vasprintf_hi (some stale) 3 7
          [37, 115, 0] () =
        [Event.write_fd 5 16 (Buf.ints [1, 3, 7, 2]),
         Event.write_fd 5 3 (Buf.bytes [104, 105, 0]), Event.read_fd 6 12,
         Event.free [104, 105, 0]] := by
  decide

/-! ## The wait status -/

/-- C10: two runs of `send_command` on the same request whose channel calls
return the same codes and whose result frames agree on `csel[0]` and `csel[1]`
return the same value and make the same calls, diagnostics and their arguments
included, whatever the two values of `csel[2]`; when the channel calls succeed
and both flags are 0 or 1, the value returned is `ORTE_ERROR` for
`exited == 0`, `ORTE_ERR_TIMEOUT` for `(1, 1)` and `ORTE_SUCCESS` for
`(1, 0)`. -/
theorem C10_wait_status_not_read (K : Constants) (C : Component) (P Q : Peer)
    (severity errcode : Int) (msg : List Nat)
    (hw1 : P.write1_rc = Q.write1_rc) (hw2 : P.write2_rc = Q.write2_rc)
    (hr : P.read_rc = Q.read_rc) (h0 : P.csel0 = Q.csel0) (h1 : P.csel1 = Q.csel1) :
    send_command K C P severity errcode msg = send_command K C Q severity errcode msg ∧
      (P.write1_rc = K.ORTE_SUCCESS → P.write2_rc = K.ORTE_SUCCESS →
        P.read_rc = K.ORTE_SUCCESS → (P.csel0 = 0 ∨ P.csel0 = 1) →
        (P.csel1 = 0 ∨ P.csel1 = 1) →
        (send_command K C Q severity errcode msg).1 =
          if P.csel0 = 0 then K.ORTE_ERROR
          else if P.csel1 = 1 then K.ORTE_ERR_TIMEOUT
          else K.ORTE_SUCCESS) := by
  have heq : send_command K C P severity errcode msg =
      send_command K C Q severity errcode msg := by
    simp only [send_command, hw1, hw2, hr, h0, h1]
  refine ⟨heq, ?_⟩
  intro s1 s2 s3 e t
  rw [← heq, send_command_ok K C P severity errcode msg s1 s2 s3]
  rcases e with e | e <;> rcases t with t | t <;>
    simp [e, t, WIFEXITED, WTERMSIG, WEXITSTATUS]

/-- C10 at the frames `(1, 0, 0)` and `(1, 0, 256)`, and at `(1, 1, 0)` and
`(1, 1, 9)`. -/
theorem C10_wait_status_not_read_witness :
    send_command ompi cfg (answering ompi 1 0 0) 3 7 hi =
        send_command ompi cfg (answering ompi 1 0 256) 3 7 hi ∧
      (send_command ompi cfg (answering ompi 1 0 256) 3 7 hi).1 = 0 ∧
      send_command ompi cfg (answering ompi 1 1 0) 3 7 hi =
        send_command ompi cfg (answering ompi 1 1 9) 3 7 hi ∧
      (send_command ompi cfg (answering ompi 1 1 9) 3 7 hi).1 = -15 :=
  ⟨(C10_wait_status_not_read ompi cfg (answering ompi 1 0 0) (answering ompi 1 0 256) 3 7 hi
      rfl rfl rfl rfl rfl).1,
    (C10_wait_status_not_read ompi cfg (answering ompi 1 0 0) (answering ompi 1 0 256) 3 7 hi
      rfl rfl rfl rfl rfl).2 rfl rfl rfl (Or.inr rfl) (Or.inl rfl),
    (C10_wait_status_not_read ompi cfg (answering ompi 1 1 0) (answering ompi 1 1 9) 3 7 hi
      rfl rfl rfl rfl rfl).1,
    (C10_wait_status_not_read ompi cfg (answering ompi 1 1 0) (answering ompi 1 1 9) 3 7 hi
      rfl rfl rfl rfl rfl).2 rfl rfl rfl (Or.inr rfl) (Or.inr rfl)⟩

end NotifierCommand
